import Mathlib

/-!
# Verification of the NeRF demo web app (`webapp/app.py`)

Shallow embedding of the Flask request handlers in `src/webapp/app.py`:

* `render`  — the `POST /render` handler (lines 48–123): validates the three
  form fields, calls the external NeRF renderer, stages the returned PNG
  bytes in the in-memory `_IMAGE_CACHE` under a fresh request id, and
  returns the populated template.
* `image`   — the `GET /image/<rid>` handler (lines 130–137): serves staged
  bytes, 404 when absent.

The cache `_IMAGE_CACHE` is modelled as an association list with Python-dict
lookup/assignment semantics.  The external HTTP call (`requests.post` +
`raise_for_status`) is modelled as an oracle `BackendResult`: either a raised
`requests.RequestException` carrying its message (connection error, timeout,
or non-success status), or a delivered response with its `content-type`
header and body bytes.  The uuid4 request id is an oracle string parameter;
its freshness is an explicit hypothesis where a claim needs it.

CPython's `float(str)` and `str(float)` are modelled exactly on the fragment
the program and the claims exercise: the ASCII grammar of `float()`
(optional whitespace, sign, `inf`/`infinity`/`nan` case-insensitively, or a
decimal literal with optional underscores between digits and an optional
exponent), with the value kept as the exact decimal it denotes.  CPython
rounds that decimal to the nearest IEEE-754 binary64; on every input a
theorem below is instantiated at, the decimal value is exactly representable
in binary64 and lies in the plain-decimal printing regime
(`1e-4 ≤ |v| < 1e16` or `v = 0`), where rounding is the identity and
`repr`/`str` prints the canonical decimal, so the model agrees with CPython
there.  (Outside that fragment — unicode digits, negative zero, values
printed in scientific notation, decimals needing rounding — the model is not
consulted by any theorem.)
-/

/-- ASCII whitespace stripped by CPython `float()` (and by `str.strip()`). -/
def pyWs (c : Char) : Bool :=
  c = ' ' || c = '\t' || c = '\n' || c = '\r' || c = '\x0b' || c = '\x0c'

/-- Strip leading and trailing whitespace from a character list. -/
def stripWs (l : List Char) : List Char :=
  ((l.dropWhile pyWs).reverse.dropWhile pyWs).reverse

/-- Consume a leading `+`/`-` sign; `true` means negative. -/
def parseSignL : List Char → Bool × List Char
  | '-' :: rest => (true, rest)
  | '+' :: rest => (false, rest)
  | l => (false, l)

/-- Continuation of a digit group: digits, with single underscores allowed
only between digits (CPython PEP 515).  Returns the digits read (underscores
removed) and the unread remainder. -/
def digitsUAux : List Char → List Char × List Char
  | [] => ([], [])
  | c :: rest =>
    if c.isDigit then
      let p := digitsUAux rest
      (c :: p.1, p.2)
    else if c = '_' then
      match rest with
      | [] => ([], [c])
      | d :: rest2 =>
        if d.isDigit then
          let p := digitsUAux rest2
          (d :: p.1, p.2)
        else ([], c :: rest)
    else ([], c :: rest)

/-- A digit group of CPython `float()`: must begin with a digit; underscores
allowed only between digits. -/
def digitsU : List Char → List Char × List Char
  | [] => ([], [])
  | c :: rest =>
    if c.isDigit then
      let p := digitsUAux rest
      (c :: p.1, p.2)
    else ([], c :: rest)

/-- Numeric value of a list of decimal digits. -/
def natOfDigits (l : List Char) : Nat :=
  l.foldl (fun a c => 10 * a + (c.toNat - 48)) 0

/-- Exponent part of a CPython float literal: sign, then a nonempty digit
group, then nothing.  `mant` are the mantissa digits already read, `k` the
number of fractional digits among them.  Value returned as
(numerator, power of ten of the denominator). -/
def parseExp (mant : List Char) (k : Nat) (l : List Char) : Option (Nat × Nat) :=
  let s := parseSignL l
  let d := digitsU s.2
  if d.1.isEmpty || !d.2.isEmpty then none
  else
    let e : Int := if s.1 then -(natOfDigits d.1 : Int) else (natOfDigits d.1 : Int)
    let t : Int := e - (k : Int)
    if 0 ≤ t then some (natOfDigits mant * 10 ^ t.toNat, 0)
    else some (natOfDigits mant, (-t).toNat)

/-- Unsigned decimal literal of CPython `float()`:
`digits [. digits] [exp]` or `. digits [exp]`, underscores between digits.
Returns the exact value as (numerator, power of ten of the denominator). -/
def parseDec (l : List Char) : Option (Nat × Nat) :=
  let ip := digitsU l
  let fr :=
    match ip.2 with
    | '.' :: rest => digitsU rest
    | _ => (([] : List Char), ip.2)
  if ip.1.isEmpty && fr.1.isEmpty then none
  else
    match fr.2 with
    | [] => some (natOfDigits (ip.1 ++ fr.1), fr.1.length)
    | 'e' :: rest => parseExp (ip.1 ++ fr.1) fr.1.length rest
    | 'E' :: rest => parseExp (ip.1 ++ fr.1) fr.1.length rest
    | _ => none

/-- A CPython float value, on the fragment the program exercises: `nan`,
signed infinity, or a finite value given exactly as `num / 10 ^ den10`
(normalised so that `den10 = 0` or `10 ∤ num`). -/
inductive PyVal where
  | nan : PyVal
  | inf (neg : Bool) : PyVal
  | finite (num : Int) (den10 : Nat) : PyVal
deriving DecidableEq, Repr

/-- Normalise `num / 10 ^ den10` by cancelling factors of ten. -/
def normFin (num : Int) : Nat → Int × Nat
  | 0 => (num, 0)
  | k + 1 => if num % 10 = 0 then normFin (num / 10) k else (num, k + 1)

/-- Model of CPython `float(s)` (see the module docstring for the modelled
fragment): `none` when `float` raises `ValueError`. -/
def pyFloat (s : String) : Option PyVal :=
  let l := stripWs s.data
  let sg := parseSignL l
  let low := sg.2.map Char.toLower
  if low = "inf".data || low = "infinity".data then some (.inf sg.1)
  else if low = "nan".data then some .nan
  else
    match parseDec sg.2 with
    | some mk =>
      let n : Int := if sg.1 then -(mk.1 : Int) else (mk.1 : Int)
      let nd := normFin n mk.2
      some (.finite nd.1 nd.2)
    | none => none

/-- Left-pad a string with `0` to length `k`. -/
def padZeros (s : String) (k : Nat) : String :=
  ⟨List.replicate (k - s.length) '0' ++ s.data⟩

/-- Model of CPython `str(f)` for a float `f`, exact on the plain-decimal
regime described in the module docstring (integral values print as `N.0`,
other values as the canonical decimal with no trailing zeros). -/
def pyStr : PyVal → String
  | .nan => "nan"
  | .inf false => "inf"
  | .inf true => "-inf"
  | .finite num 0 => toString num ++ ".0"
  | .finite num (k + 1) =>
    (if num < 0 then "-" else "") ++ toString (num.natAbs / 10 ^ (k + 1)) ++ "."
      ++ padZeros (toString (num.natAbs % 10 ^ (k + 1))) (k + 1)


/-! ## Data model of the web app -/

/-- The submitted form (`request.form`): each field may be absent from the
POST body, in which case `request.form["x"]` raises (caught by the handler's
`except`) and `request.form.get("x", "")` yields `""`. -/
structure Form where
  azimuth_deg : Option String
  polar_deg : Option String
  elevation_deg : Option String
deriving DecidableEq, Repr

/-- Outcome of `requests.post(f"{NERF_BACKEND_URL}/render", json=..., timeout=300)`
followed by `resp.raise_for_status()` (app.py lines 85–90), as an oracle:
`exn msg` is a raised `requests.RequestException` rendered as the string
`msg` (connection error, timeout, or the `HTTPError` from a non-success
status); `ok ct body` is a delivered success response with
`resp.headers.get("content-type")` equal to `ct` (`none` when the header is
absent) and `resp.content = body`. -/
inductive BackendResult where
  | exn (msg : String) : BackendResult
  | ok (contentType : Option String) (body : List Nat) : BackendResult
deriving DecidableEq, Repr

/-- The rendered `index.html` template context together with the HTTP status
code of the `POST /render` response. -/
structure ViewResponse where
  status : Nat
  azimuth_deg : String
  polar_deg : String
  elevation_deg : String
  image_url : Option String
  error : Option String
deriving DecidableEq, Repr

/-- The in-memory Pending Image store `_IMAGE_CACHE` (app.py line 127), an
association list with Python-dict semantics: `cacheGet` is `dict.get`,
`cacheSet` is `dict[k] = v`. -/
def Cache := List (String × List Nat)

instance : DecidableEq Cache :=
  inferInstanceAs (DecidableEq (List (String × List Nat)))

/-- `_IMAGE_CACHE.get(k)`. -/
def cacheGet (c : Cache) (k : String) : Option (List Nat) :=
  (List.find? (fun p => p.1 == k) c).map Prod.snd

/-- `_IMAGE_CACHE[k] = v`: binds `k` to `v`, replacing any previous binding. -/
def cacheSet (c : Cache) (k : String) (v : List Nat) : Cache :=
  (k, v) :: List.filter (fun p => !(p.1 == k)) c

/-- Number of bindings a key has in the store (a Python dict keeps exactly
one per present key). -/
def countKey (c : Cache) (k : String) : Nat :=
  (List.filter (fun p => p.1 == k) c).length

/-- Everything `POST /render` produces: the response, the store afterwards,
and whether the external renderer was called. -/
structure RenderOutcome where
  response : ViewResponse
  cache : Cache
  calledBackend : Bool

/-- `NERF_BACKend_URL = os.environ.get("NERF_BACKEND_URL", "").rstrip("/")`
(app.py line 32): `env` is the raw environment setting (`none` when unset). -/
def configuredUrl (env : Option String) : String :=
  ⟨((env.getD "").data.reverse.dropWhile (fun c => c == '/')).reverse⟩

/-- The media type the handler compares (app.py line 102):
`resp.headers.get("content-type", "").split(";")[0].strip().lower()` —
the part before the first `;`, stripped of surrounding whitespace,
lowercased. -/
def mediaType (ct : String) : String :=
  ⟨(stripWs (ct.data.takeWhile (fun c => !(c == ';')))).map Char.toLower⟩

/-- `float(request.form["x"])` for field `x`: `none` when the field is
missing (`KeyError`) or does not parse (`ValueError`); both land in the
handler's `except Exception`. -/
def parseField (f : Option String) : Option PyVal :=
  f.bind pyFloat

/-- The `POST /render` handler (app.py lines 48–123).  `env` is the raw
`NERF_BACKEND_URL` environment setting, `rid` the `str(uuid.uuid4())` drawn
at line 76, `backend` the outcome of the external call, `cache` the store
before the request. -/
def render (env : Option String) (form : Form) (rid : String)
    (backend : BackendResult) (cache : Cache) : RenderOutcome :=
  if configuredUrl env = "" then
    { response :=
        { status := 500
          azimuth_deg := form.azimuth_deg.getD ""
          polar_deg := form.polar_deg.getD ""
          elevation_deg := form.elevation_deg.getD ""
          image_url := none
          error := some "NERF_BACKEND_URL is not set on the server." }
      cache := cache
      calledBackend := false }
  else
    match parseField form.azimuth_deg, parseField form.polar_deg,
        parseField form.elevation_deg with
    | some az, some pol, some elev =>
      match backend with
      | .exn msg =>
        { response :=
            { status := 502
              azimuth_deg := pyStr az
              polar_deg := pyStr pol
              elevation_deg := pyStr elev
              image_url := none
              error := some ("Backend error: " ++ msg) }
          cache := cache
          calledBackend := true }
      | .ok ct body =>
        if mediaType (ct.getD "") ≠ "image/png" then
          { response :=
              { status := 502
                azimuth_deg := pyStr az
                polar_deg := pyStr pol
                elevation_deg := pyStr elev
                image_url := none
                error := some "Backend did not return image/png." }
            cache := cache
            calledBackend := true }
        else
          { response :=
              { status := 200
                azimuth_deg := pyStr az
                polar_deg := pyStr pol
                elevation_deg := pyStr elev
                image_url := some ("/image/" ++ rid)
                error := none }
            cache := cacheSet cache rid body
            calledBackend := true }
    | _, _, _ =>
      { response :=
          { status := 400
            azimuth_deg := form.azimuth_deg.getD ""
            polar_deg := form.polar_deg.getD ""
            elevation_deg := form.elevation_deg.getD ""
            image_url := none
            error := some "Invalid input. Please enter numeric degrees." }
        cache := cache
        calledBackend := false }

/-- Response of `GET /image/<rid>`: `abort(404)` or the bytes with the fixed
mimetype. -/
inductive ImageResp where
  | notFound : ImageResp
  | ok (data : List Nat) (mimetype : String) : ImageResp
deriving DecidableEq, Repr

/-- The `GET /image/<rid>` handler (app.py lines 130–137).  It only reads the
store (the eviction at line 136 is commented out), so it returns a response
and leaves the store to the caller unchanged. -/
def image (c : Cache) (rid : String) : ImageResp :=
  match cacheGet c rid with
  | none => .notFound
  | some data => .ok data "image/png"

/-! ## Traces of requests, for the store invariants -/

/-- One incoming HTTP request relevant to the Pending Image store. -/
inductive Op where
  | submit (form : Form) (rid : String) (backend : BackendResult) : Op
  | fetch (rid : String) : Op

/-- Effect of one request on the store (`env` is fixed at process start). -/
def stepCache (env : Option String) (c : Cache) : Op → Cache
  | .submit f r b => (render env f r b c).cache
  | .fetch _ => c

/-- Store after a sequence of requests. -/
def run (env : Option String) (c : Cache) : List Op → Cache
  | [] => c
  | op :: t => run env (stepCache env c op) t

/-- The uuid4 request ids drawn by the submits of a trace. -/
def submitRids (t : List Op) : List String :=
  t.filterMap fun op =>
    match op with
    | .submit _ r _ => some r
    | .fetch _ => none


/-- Taken from the spec's words, for comparison with the code: the spec's
validation rule says each field "must parse as a finite floating-point
number".  A string satisfies it when CPython `float()` succeeds AND yields a
finite value (so `"inf"`, `"infinity"`, `"nan"` do not satisfy it even
though `float()` accepts them). -/
def parsesAsFiniteFloat (s : String) : Bool :=
  match pyFloat s with
  | some (.finite _ _) => true
  | _ => false

/-! ## Store lemmas -/

theorem cacheGet_cacheSet_same (c : Cache) (k : String) (v : List Nat) :
    cacheGet (cacheSet c k v) k = some v := by
  simp [cacheGet, cacheSet, List.find?_cons]

theorem find?_filter_ne (c : Cache) (k k2 : String) (h : ¬ k2 = k) :
    List.find? (fun p => p.1 == k2) (List.filter (fun p => !(p.1 == k)) c)
      = List.find? (fun p => p.1 == k2) c := by
  induction c with
  | nil => rfl
  | cons a t ih =>
    by_cases hk : a.1 = k
    · have h1 : (!(a.1 == k)) = false := by simp [hk]
      have h2 : (a.1 == k2) = false := by
        rw [beq_eq_false_iff_ne, hk]
        exact fun hh => h hh.symm
      rw [List.filter_cons, h1, if_neg Bool.false_ne_true, ih,
        List.find?_cons_of_neg _ (by simp [h2])]
    · have h1 : (!(a.1 == k)) = true := by simp [hk]
      rw [List.filter_cons, h1, if_pos rfl]
      by_cases h2 : a.1 = k2
      · rw [List.find?_cons_of_pos _ (by simp [h2]),
          List.find?_cons_of_pos _ (by simp [h2])]
      · rw [List.find?_cons_of_neg _ (by simp [h2]),
          List.find?_cons_of_neg _ (by simp [h2]), ih]

theorem cacheGet_cacheSet_other (c : Cache) (k k2 : String) (v : List Nat)
    (h : ¬ k2 = k) : cacheGet (cacheSet c k v) k2 = cacheGet c k2 := by
  have hh : (k == k2) = false := by
    rw [beq_eq_false_iff_ne]
    exact fun hh => h hh.symm
  simp only [cacheGet, cacheSet, List.find?_cons, hh]
  rw [find?_filter_ne c k k2 h]

theorem filter_not_self (p : String × List Nat → Bool) (l : Cache) :
    List.filter p (List.filter (fun x => !(p x)) l) = [] := by
  induction l with
  | nil => rfl
  | cons a t ih => cases hp : p a <;> simp [List.filter_cons, hp, ih]

theorem countKey_cacheSet_same (c : Cache) (k : String) (v : List Nat) :
    countKey (cacheSet c k v) k = 1 := by
  simp only [countKey, cacheSet, List.filter_cons, beq_self_eq_true,
    filter_not_self (fun p => p.1 == k) c]
  rfl

theorem length_cacheSet_fresh (c : Cache) (k : String) (v : List Nat)
    (h : cacheGet c k = none) :
    List.length (cacheSet c k v) = List.length c + 1 := by
  have hfind : List.find? (fun p => p.1 == k) c = none := by
    simpa [cacheGet] using h
  have hall := List.find?_eq_none.mp hfind
  have : List.filter (fun p => !(p.1 == k)) c = c := by
    rw [List.filter_eq_self]
    intro a ha
    simpa using hall a ha
  simp [cacheSet, this]

/-! ## Branch characterisation of the submit handler -/

/-- Every run of the `POST /render` handler either leaves the store
untouched (and does not answer 200), or answers 200 after a delivered
backend response, storing exactly the response body under the drawn id and
handing a reference to that id to the browser. -/
theorem render_split (env : Option String) (f : Form) (r : String)
    (b : BackendResult) (c : Cache) :
    ((render env f r b c).response.status ≠ 200 ∧
      (render env f r b c).cache = c) ∨
    (∃ ct body, b = BackendResult.ok ct body ∧
      (render env f r b c).response.status = 200 ∧
      (render env f r b c).cache = cacheSet c r body ∧
      (render env f r b c).response.image_url = some ("/image/" ++ r) ∧
      (render env f r b c).response.error = none) := by
  unfold render
  split
  · exact Or.inl ⟨by simp, rfl⟩
  · split
    · cases b with
      | exn msg => exact Or.inl ⟨by simp, rfl⟩
      | ok ct body =>
        dsimp only
        split
        · exact Or.inl ⟨by simp, rfl⟩
        · exact Or.inr ⟨ct, body, rfl, rfl, rfl, rfl, rfl⟩
    · exact Or.inl ⟨by simp, rfl⟩

/-- A request id different from the one a submit draws keeps its binding. -/
theorem cacheGet_render_ne (env : Option String) (f : Form) (r : String)
    (b : BackendResult) (c : Cache) (r2 : String) (h : ¬ r2 = r) :
    cacheGet (render env f r b c).cache r2 = cacheGet c r2 := by
  rcases render_split env f r b c with ⟨-, hc⟩ | ⟨ct, body, -, -, hc, -, -⟩ <;>
    rw [hc]
  exact cacheGet_cacheSet_other c r r2 body h

theorem run_append (env : Option String) (c : Cache) (t1 t2 : List Op) :
    run env c (t1 ++ t2) = run env (run env c t1) t2 := by
  induction t1 generalizing c with
  | nil => rfl
  | cons op t ih => simpa [run] using ih (stepCache env c op)

theorem submitRids_cons_submit (f : Form) (r : String) (b : BackendResult)
    (t : List Op) :
    submitRids (Op.submit f r b :: t) = r :: submitRids t := by
  simp [submitRids]

theorem submitRids_cons_fetch (r : String) (t : List Op) :
    submitRids (Op.fetch r :: t) = submitRids t := by
  simp [submitRids]

theorem submitRids_append (t1 t2 : List Op) :
    submitRids (t1 ++ t2) = submitRids t1 ++ submitRids t2 := by
  simp [submitRids]

/-- A request id drawn by no submit of a trace keeps its binding across the
whole trace. -/
theorem cacheGet_run_ne (env : Option String) (c : Cache) (t : List Op)
    (r2 : String) (h : r2 ∉ submitRids t) :
    cacheGet (run env c t) r2 = cacheGet c r2 := by
  induction t generalizing c with
  | nil => rfl
  | cons op t ih =>
    cases op with
    | submit f r b =>
      rw [submitRids_cons_submit] at h
      have hr : ¬ r2 = r := fun hh => h (hh ▸ List.mem_cons_self r _)
      have ht : r2 ∉ submitRids t := fun hh => h (List.mem_cons_of_mem r hh)
      rw [show run env c (Op.submit f r b :: t)
          = run env (stepCache env c (Op.submit f r b)) t from rfl, ih _ ht]
      exact cacheGet_render_ne env f r b c r2 hr
    | fetch r =>
      rw [submitRids_cons_fetch] at h
      exact (show run env c (Op.fetch r :: t) = run env c t from rfl) ▸ ih c h

/-! ## Branch equations of the submit handler -/

/-- With the backend configured, any field that fails `float()` sends the
handler into the `except` branch: 400, original values echoed, no call. -/
theorem render_invalid_400 (env : Option String) (f : Form) (rid : String)
    (b : BackendResult) (c : Cache)
    (hcfg : configuredUrl env ≠ "")
    (hbad : parseField f.azimuth_deg = none ∨ parseField f.polar_deg = none ∨
      parseField f.elevation_deg = none) :
    render env f rid b c =
      { response :=
          { status := 400
            azimuth_deg := f.azimuth_deg.getD ""
            polar_deg := f.polar_deg.getD ""
            elevation_deg := f.elevation_deg.getD ""
            image_url := none
            error := some "Invalid input. Please enter numeric degrees." }
        cache := c
        calledBackend := false } := by
  unfold render
  rw [if_neg hcfg]
  rcases hbad with hb | hb | hb
  · rw [hb]
  · cases hA : parseField f.azimuth_deg with
    | none => rfl
    | some az => rw [hb]
  · cases hA : parseField f.azimuth_deg with
    | none => rfl
    | some az =>
      cases hP : parseField f.polar_deg with
      | none => rfl
      | some pol => rw [hb]

/-- With the backend configured, all fields parsing, and a delivered response
whose media type is `image/png`: the handler stores the body under the drawn
id and returns the fully populated success view. -/
theorem render_success_eq (env : Option String) (f : Form) (rid : String)
    (ct : Option String) (body : List Nat) (c : Cache) (az pol elev : PyVal)
    (hcfg : configuredUrl env ≠ "")
    (ha : parseField f.azimuth_deg = some az)
    (hp : parseField f.polar_deg = some pol)
    (he : parseField f.elevation_deg = some elev)
    (hct : mediaType (ct.getD "") = "image/png") :
    render env f rid (BackendResult.ok ct body) c =
      { response :=
          { status := 200
            azimuth_deg := pyStr az
            polar_deg := pyStr pol
            elevation_deg := pyStr elev
            image_url := some ("/image/" ++ rid)
            error := none }
        cache := cacheSet c rid body
        calledBackend := true } := by
  unfold render
  rw [if_neg hcfg, ha, hp, he]
  dsimp only
  rw [if_neg (not_not_intro hct)]

/-! ## The claims -/

/-- C1: For every submission whose three fields parse as numbers and where
the configured backend responds with success and content type `image/png`,
submit stores the response bytes in the Pending Image store under the
freshly drawn identifier, returns a success page referencing that identifier
with no error (echoing the parsed values), and a subsequent fetch of the
identifier returns exactly the bytes the renderer returned, with content
type `image/png`. -/
theorem submit_success_stores_and_fetch_returns_bytes
    (env : Option String) (f : Form) (rid : String) (ct : Option String)
    (body : List Nat) (c : Cache) (az pol elev : PyVal)
    (hcfg : configuredUrl env ≠ "")
    (ha : parseField f.azimuth_deg = some az)
    (hp : parseField f.polar_deg = some pol)
    (he : parseField f.elevation_deg = some elev)
    (hct : mediaType (ct.getD "") = "image/png") :
    (render env f rid (BackendResult.ok ct body) c).response.status = 200 ∧
    (render env f rid (BackendResult.ok ct body) c).response.image_url
      = some ("/image/" ++ rid) ∧
    (render env f rid (BackendResult.ok ct body) c).response.error = none ∧
    (render env f rid (BackendResult.ok ct body) c).cache
      = cacheSet c rid body ∧
    cacheGet ((render env f rid (BackendResult.ok ct body) c).cache) rid
      = some body ∧
    image ((render env f rid (BackendResult.ok ct body) c).cache) rid
      = ImageResp.ok body "image/png" := by
  rw [render_success_eq env f rid ct body c az pol elev hcfg ha hp he hct]
  refine ⟨rfl, rfl, rfl, rfl, cacheGet_cacheSet_same c rid body, ?_⟩
  unfold image
  rw [cacheGet_cacheSet_same]

/-- Witness for C1, the spec's concrete scenario: angles 45.0/60.0/30.0, a
10-byte PNG body, empty store. -/
theorem submit_success_stores_and_fetch_returns_bytes_witness :
    (render (some "http://backend") ⟨some "45.0", some "60.0", some "30.0"⟩
        "xid" (BackendResult.ok (some "image/png") [0, 1, 2, 3, 4, 5, 6, 7, 8, 9])
        []).response.status = 200 ∧
    (render (some "http://backend") ⟨some "45.0", some "60.0", some "30.0"⟩
        "xid" (BackendResult.ok (some "image/png") [0, 1, 2, 3, 4, 5, 6, 7, 8, 9])
        []).response.image_url = some ("/image/" ++ "xid") ∧
    (render (some "http://backend") ⟨some "45.0", some "60.0", some "30.0"⟩
        "xid" (BackendResult.ok (some "image/png") [0, 1, 2, 3, 4, 5, 6, 7, 8, 9])
        []).response.error = none ∧
    (render (some "http://backend") ⟨some "45.0", some "60.0", some "30.0"⟩
        "xid" (BackendResult.ok (some "image/png") [0, 1, 2, 3, 4, 5, 6, 7, 8, 9])
        []).cache = cacheSet [] "xid" [0, 1, 2, 3, 4, 5, 6, 7, 8, 9] ∧
    cacheGet ((render (some "http://backend")
        ⟨some "45.0", some "60.0", some "30.0"⟩ "xid"
        (BackendResult.ok (some "image/png") [0, 1, 2, 3, 4, 5, 6, 7, 8, 9])
        []).cache) "xid" = some [0, 1, 2, 3, 4, 5, 6, 7, 8, 9] ∧
    image ((render (some "http://backend")
        ⟨some "45.0", some "60.0", some "30.0"⟩ "xid"
        (BackendResult.ok (some "image/png") [0, 1, 2, 3, 4, 5, 6, 7, 8, 9])
        []).cache) "xid"
      = ImageResp.ok [0, 1, 2, 3, 4, 5, 6, 7, 8, 9] "image/png" :=
  submit_success_stores_and_fetch_returns_bytes (some "http://backend")
    ⟨some "45.0", some "60.0", some "30.0"⟩ "xid" (some "image/png")
    [0, 1, 2, 3, 4, 5, 6, 7, 8, 9] [] (.finite 45 0) (.finite 60 0)
    (.finite 30 0) (by decide) (by decide) (by decide) (by decide) (by decide)

/-- C2 counterexample: the field `"inf"` does NOT parse as a *finite*
floating-point number (the spec's validation rule), yet the handler does not
answer 400: CPython `float("inf")` succeeds, so the handler proceeds, calls
the backend, and (with a PNG response) answers 200. -/
theorem finite_validation_counterexample :
    parsesAsFiniteFloat "inf" = false ∧
    pyFloat "inf" = some (PyVal.inf false) ∧
    (render (some "http://backend") ⟨some "inf", some "60.0", some "30.0"⟩
        "xid" (BackendResult.ok (some "image/png") [1]) []).response.status
      = 200 ∧
    (render (some "http://backend") ⟨some "inf", some "60.0", some "30.0"⟩
        "xid" (BackendResult.ok (some "image/png") [1]) []).calledBackend
      = true := by
  exact ⟨rfl, rfl, rfl, rfl⟩

/-- C2 as amended: for every submission (with the backend configured) in
which some field does not parse under CPython `float()` at all — which
accepts the non-finite spellings `inf`/`infinity`/`nan` — the handler
responds 400, echoes the original unparsed field values plus the
human-readable message, makes no call to the external renderer, and leaves
the store unchanged. -/
theorem submit_nonparsing_field_400
    (env : Option String) (f : Form) (rid : String) (b : BackendResult)
    (c : Cache)
    (hcfg : configuredUrl env ≠ "")
    (hbad : parseField f.azimuth_deg = none ∨ parseField f.polar_deg = none ∨
      parseField f.elevation_deg = none) :
    (render env f rid b c).response.status = 400 ∧
    (render env f rid b c).calledBackend = false ∧
    (render env f rid b c).cache = c ∧
    (render env f rid b c).response.error
      = some "Invalid input. Please enter numeric degrees." ∧
    (render env f rid b c).response.azimuth_deg = f.azimuth_deg.getD "" ∧
    (render env f rid b c).response.polar_deg = f.polar_deg.getD "" ∧
    (render env f rid b c).response.elevation_deg = f.elevation_deg.getD "" := by
  rw [render_invalid_400 env f rid b c hcfg hbad]
  exact ⟨rfl, rfl, rfl, rfl, rfl, rfl, rfl⟩

/-- Witness for the amended C2: the non-numeric field `"abc"`. -/
theorem submit_nonparsing_field_400_witness :
    (render (some "http://backend") ⟨some "abc", some "60.0", some "30.0"⟩
        "xid" (BackendResult.ok (some "image/png") [1]) []).response.status
      = 400 ∧
    (render (some "http://backend") ⟨some "abc", some "60.0", some "30.0"⟩
        "xid" (BackendResult.ok (some "image/png") [1]) []).calledBackend
      = false ∧
    (render (some "http://backend") ⟨some "abc", some "60.0", some "30.0"⟩
        "xid" (BackendResult.ok (some "image/png") [1]) []).cache = [] ∧
    (render (some "http://backend") ⟨some "abc", some "60.0", some "30.0"⟩
        "xid" (BackendResult.ok (some "image/png") [1]) []).response.error
      = some "Invalid input. Please enter numeric degrees." ∧
    (render (some "http://backend") ⟨some "abc", some "60.0", some "30.0"⟩
        "xid" (BackendResult.ok (some "image/png") [1]) []).response.azimuth_deg
      = "abc" ∧
    (render (some "http://backend") ⟨some "abc", some "60.0", some "30.0"⟩
        "xid" (BackendResult.ok (some "image/png") [1]) []).response.polar_deg
      = "60.0" ∧
    (render (some "http://backend") ⟨some "abc", some "60.0", some "30.0"⟩
        "xid" (BackendResult.ok (some "image/png") [1]) []).response.elevation_deg
      = "30.0" :=
  submit_nonparsing_field_400 (some "http://backend")
    ⟨some "abc", some "60.0", some "30.0"⟩ "xid"
    (BackendResult.ok (some "image/png") [1]) [] (by decide)
    (Or.inl (by decide))

/-- C3: For every submission, if the backend address setting is empty (not
configured), submit responds 500 with the configuration error message and
makes zero external calls, leaving the store unchanged — regardless of the
input fields. -/
theorem submit_unconfigured_500
    (env : Option String) (f : Form) (rid : String) (b : BackendResult)
    (c : Cache) (hempty : env.getD "" = "") :
    (render env f rid b c).response.status = 500 ∧
    (render env f rid b c).calledBackend = false ∧
    (render env f rid b c).cache = c ∧
    (render env f rid b c).response.error
      = some "NERF_BACKEND_URL is not set on the server." := by
  have hc : configuredUrl env = "" := by
    unfold configuredUrl
    rw [hempty]
    rfl
  unfold render
  rw [if_pos hc]
  exact ⟨rfl, rfl, rfl, rfl⟩

/-- Witness for C3: unset environment variable, valid numeric fields. -/
theorem submit_unconfigured_500_witness :
    (render none ⟨some "45.0", some "60.0", some "30.0"⟩ "xid"
        (BackendResult.ok (some "image/png") [1]) []).response.status = 500 ∧
    (render none ⟨some "45.0", some "60.0", some "30.0"⟩ "xid"
        (BackendResult.ok (some "image/png") [1]) []).calledBackend = false ∧
    (render none ⟨some "45.0", some "60.0", some "30.0"⟩ "xid"
        (BackendResult.ok (some "image/png") [1]) []).cache = [] ∧
    (render none ⟨some "45.0", some "60.0", some "30.0"⟩ "xid"
        (BackendResult.ok (some "image/png") [1]) []).response.error
      = some "NERF_BACKEND_URL is not set on the server." :=
  submit_unconfigured_500 none ⟨some "45.0", some "60.0", some "30.0"⟩ "xid"
    (BackendResult.ok (some "image/png") [1]) [] (by decide)

/-- C4: For every submission with valid numeric input and a configured
backend, if the external call raises (connection error, timeout, or
non-success status surfaced by `raise_for_status`), submit responds 502 with
a message that includes the underlying error text, echoes the parsed numeric
values back, and adds nothing to the Pending Image store. -/
theorem submit_backend_exn_502
    (env : Option String) (f : Form) (rid : String) (msg : String)
    (c : Cache) (az pol elev : PyVal)
    (hcfg : configuredUrl env ≠ "")
    (ha : parseField f.azimuth_deg = some az)
    (hp : parseField f.polar_deg = some pol)
    (he : parseField f.elevation_deg = some elev) :
    (render env f rid (BackendResult.exn msg) c).response.status = 502 ∧
    (render env f rid (BackendResult.exn msg) c).response.error
      = some ("Backend error: " ++ msg) ∧
    (render env f rid (BackendResult.exn msg) c).response.azimuth_deg
      = pyStr az ∧
    (render env f rid (BackendResult.exn msg) c).response.polar_deg
      = pyStr pol ∧
    (render env f rid (BackendResult.exn msg) c).response.elevation_deg
      = pyStr elev ∧
    (render env f rid (BackendResult.exn msg) c).cache = c := by
  unfold render
  rw [if_neg hcfg, ha, hp, he]
  exact ⟨rfl, rfl, rfl, rfl, rfl, rfl⟩

/-- Witness for C4: a connection-timeout message. -/
theorem submit_backend_exn_502_witness :
    (render (some "http://backend") ⟨some "45.0", some "60.0", some "30.0"⟩
        "xid" (BackendResult.exn "connection timed out") []).response.status
      = 502 ∧
    (render (some "http://backend") ⟨some "45.0", some "60.0", some "30.0"⟩
        "xid" (BackendResult.exn "connection timed out") []).response.error
      = some ("Backend error: " ++ "connection timed out") ∧
    (render (some "http://backend") ⟨some "45.0", some "60.0", some "30.0"⟩
        "xid" (BackendResult.exn "connection timed out") []).response.azimuth_deg
      = "45.0" ∧
    (render (some "http://backend") ⟨some "45.0", some "60.0", some "30.0"⟩
        "xid" (BackendResult.exn "connection timed out") []).response.polar_deg
      = "60.0" ∧
    (render (some "http://backend") ⟨some "45.0", some "60.0", some "30.0"⟩
        "xid" (BackendResult.exn "connection timed out") []).response.elevation_deg
      = "30.0" ∧
    (render (some "http://backend") ⟨some "45.0", some "60.0", some "30.0"⟩
        "xid" (BackendResult.exn "connection timed out") []).cache = [] :=
  submit_backend_exn_502 (some "http://backend")
    ⟨some "45.0", some "60.0", some "30.0"⟩ "xid" "connection timed out" []
    (.finite 45 0) (.finite 60 0) (.finite 30 0) (by decide) (by decide)
    (by decide) (by decide)

/-- C5: For every submission where the backend responds with success but a
content type whose media type (the part before `;`, parameters ignored,
whitespace-stripped, lowercased — matching the handler's normalisation) is
not `image/png`, submit responds 502 stating the mismatch, echoes the parsed
values back, and adds nothing to the Pending Image store. -/
theorem submit_wrong_content_type_502
    (env : Option String) (f : Form) (rid : String) (ct : Option String)
    (body : List Nat) (c : Cache) (az pol elev : PyVal)
    (hcfg : configuredUrl env ≠ "")
    (ha : parseField f.azimuth_deg = some az)
    (hp : parseField f.polar_deg = some pol)
    (he : parseField f.elevation_deg = some elev)
    (hct : mediaType (ct.getD "") ≠ "image/png") :
    (render env f rid (BackendResult.ok ct body) c).response.status = 502 ∧
    (render env f rid (BackendResult.ok ct body) c).response.error
      = some "Backend did not return image/png." ∧
    (render env f rid (BackendResult.ok ct body) c).response.azimuth_deg
      = pyStr az ∧
    (render env f rid (BackendResult.ok ct body) c).response.polar_deg
      = pyStr pol ∧
    (render env f rid (BackendResult.ok ct body) c).response.elevation_deg
      = pyStr elev ∧
    (render env f rid (BackendResult.ok ct body) c).cache = c := by
  unfold render
  rw [if_neg hcfg, ha, hp, he]
  dsimp only
  rw [if_pos hct]
  exact ⟨rfl, rfl, rfl, rfl, rfl, rfl⟩

/-- Witness for C5: a `text/plain` response. -/
theorem submit_wrong_content_type_502_witness :
    (render (some "http://backend") ⟨some "45.0", some "60.0", some "30.0"⟩
        "xid" (BackendResult.ok (some "text/plain") [1]) []).response.status
      = 502 ∧
    (render (some "http://backend") ⟨some "45.0", some "60.0", some "30.0"⟩
        "xid" (BackendResult.ok (some "text/plain") [1]) []).response.error
      = some "Backend did not return image/png." ∧
    (render (some "http://backend") ⟨some "45.0", some "60.0", some "30.0"⟩
        "xid" (BackendResult.ok (some "text/plain") [1]) []).response.azimuth_deg
      = "45.0" ∧
    (render (some "http://backend") ⟨some "45.0", some "60.0", some "30.0"⟩
        "xid" (BackendResult.ok (some "text/plain") [1]) []).response.polar_deg
      = "60.0" ∧
    (render (some "http://backend") ⟨some "45.0", some "60.0", some "30.0"⟩
        "xid" (BackendResult.ok (some "text/plain") [1]) []).response.elevation_deg
      = "30.0" ∧
    (render (some "http://backend") ⟨some "45.0", some "60.0", some "30.0"⟩
        "xid" (BackendResult.ok (some "text/plain") [1]) []).cache = [] :=
  submit_wrong_content_type_502 (some "http://backend")
    ⟨some "45.0", some "60.0", some "30.0"⟩ "xid" (some "text/plain") [1] []
    (.finite 45 0) (.finite 60 0) (.finite 30 0) (by decide) (by decide)
    (by decide) (by decide) (by decide)

/-- C6 counterexample: `"45"` parses (to the exactly representable float
45.0, whose canonical `str()` form is `"45.0"`), the submit succeeds, but
the echoed string is `"45.0"`, not the submitted `"45"`: the
string → float → string round trip is not stable for all representable
input strings. -/
theorem roundtrip_unstable_counterexample :
    (pyFloat "45").isSome = true ∧
    pyFloat "45" = pyFloat "45.0" ∧
    pyStr (PyVal.finite 45 0) = "45.0" ∧
    (render (some "http://backend") ⟨some "45", some "60.0", some "30.0"⟩
        "xid" (BackendResult.ok (some "image/png") [1]) []).response.status
      = 200 ∧
    (render (some "http://backend") ⟨some "45", some "60.0", some "30.0"⟩
        "xid" (BackendResult.ok (some "image/png") [1]) []).response.azimuth_deg
      = "45.0" ∧
    (render (some "http://backend") ⟨some "45", some "60.0", some "30.0"⟩
        "xid" (BackendResult.ok (some "image/png") [1]) []).response.azimuth_deg
      ≠ "45" := by
  exact ⟨rfl, rfl, rfl, rfl, rfl, by decide⟩

/-- C6 as amended: for all well-formed numeric triples, the success response
echoes, for each field, Python's `str()` of the parsed float value — so the
string → float → string round trip is stable exactly for input strings
already in canonical `str()` form (e.g. `"45.0"`), and not for other
representable inputs (e.g. `"45"`, echoed as `"45.0"`). -/
theorem submit_success_echoes_str_of_parse
    (env : Option String) (f : Form) (rid : String) (ct : Option String)
    (body : List Nat) (c : Cache) (az pol elev : PyVal)
    (hcfg : configuredUrl env ≠ "")
    (ha : parseField f.azimuth_deg = some az)
    (hp : parseField f.polar_deg = some pol)
    (he : parseField f.elevation_deg = some elev)
    (hct : mediaType (ct.getD "") = "image/png") :
    (render env f rid (BackendResult.ok ct body) c).response.azimuth_deg
      = pyStr az ∧
    (render env f rid (BackendResult.ok ct body) c).response.polar_deg
      = pyStr pol ∧
    (render env f rid (BackendResult.ok ct body) c).response.elevation_deg
      = pyStr elev ∧
    (∀ s, f.azimuth_deg = some s →
      ((render env f rid (BackendResult.ok ct body) c).response.azimuth_deg = s
        ↔ pyStr az = s)) ∧
    (∀ s, f.polar_deg = some s →
      ((render env f rid (BackendResult.ok ct body) c).response.polar_deg = s
        ↔ pyStr pol = s)) ∧
    (∀ s, f.elevation_deg = some s →
      ((render env f rid (BackendResult.ok ct body) c).response.elevation_deg = s
        ↔ pyStr elev = s)) := by
  rw [render_success_eq env f rid ct body c az pol elev hcfg ha hp he hct]
  exact ⟨rfl, rfl, rfl, fun s _ => Iff.rfl, fun s _ => Iff.rfl,
    fun s _ => Iff.rfl⟩

/-- Witness for the amended C6: canonical inputs are echoed verbatim. -/
theorem submit_success_echoes_str_of_parse_witness :
    (render (some "http://backend") ⟨some "45.0", some "60.0", some "30.0"⟩
        "xid" (BackendResult.ok (some "image/png") [1]) []).response.azimuth_deg
      = "45.0" ∧
    (render (some "http://backend") ⟨some "45.0", some "60.0", some "30.0"⟩
        "xid" (BackendResult.ok (some "image/png") [1]) []).response.polar_deg
      = "60.0" ∧
    (render (some "http://backend") ⟨some "45.0", some "60.0", some "30.0"⟩
        "xid" (BackendResult.ok (some "image/png") [1]) []).response.elevation_deg
      = "30.0" ∧
    ((render (some "http://backend") ⟨some "45.0", some "60.0", some "30.0"⟩
        "xid" (BackendResult.ok (some "image/png") [1]) []).response.azimuth_deg
      = "45.0" ↔ pyStr (PyVal.finite 45 0) = "45.0") := by
  obtain ⟨h1, h2, h3, h4, -, -⟩ :=
    submit_success_echoes_str_of_parse (some "http://backend")
      ⟨some "45.0", some "60.0", some "30.0"⟩ "xid" (some "image/png") [1] []
      (.finite 45 0) (.finite 60 0) (.finite 30 0) (by decide) (by decide)
      (by decide) (by decide) (by decide)
  exact ⟨h1, h2, h3, h4 "45.0" rfl⟩

/-- C7: Over every sequence of submit and fetch requests in which the drawn
uuid4 identifiers are pairwise distinct (the model of uuid4 freshness),
every identifier handed to the browser by a successful submit corresponds,
at hand-out time, to exactly one stored payload, and the identifier is still
bound to that same payload after the rest of the trace: identifiers are
never reused for a different payload. -/
theorem pending_store_identifier_invariant
    (env : Option String) (c0 : Cache) (t1 t2 : List Op) (f : Form)
    (r : String) (b : BackendResult)
    (hnodup : (submitRids (t1 ++ Op.submit f r b :: t2)).Nodup)
    (hsucc : (render env f r b (run env c0 t1)).response.status = 200) :
    ∃ bytes,
      cacheGet (run env c0 (t1 ++ [Op.submit f r b])) r = some bytes ∧
      countKey (run env c0 (t1 ++ [Op.submit f r b])) r = 1 ∧
      cacheGet (run env c0 (t1 ++ Op.submit f r b :: t2)) r = some bytes := by
  rcases render_split env f r b (run env c0 t1) with ⟨hne, -⟩ |
    ⟨ct, body, -, -, hc, -, -⟩
  · exact absurd hsucc hne
  · refine ⟨body, ?_, ?_, ?_⟩
    · rw [run_append]
      show cacheGet ((render env f r b (run env c0 t1)).cache) r = some body
      rw [hc]
      exact cacheGet_cacheSet_same _ r body
    · rw [run_append]
      show countKey ((render env f r b (run env c0 t1)).cache) r = 1
      rw [hc]
      exact countKey_cacheSet_same _ r body
    · have hsplit : t1 ++ Op.submit f r b :: t2
          = (t1 ++ [Op.submit f r b]) ++ t2 := by simp
      have hnin : r ∉ submitRids t2 := by
        have h1 : (submitRids (Op.submit f r b :: t2)).Nodup := by
          rw [submitRids_append] at hnodup
          exact hnodup.of_append_right
        rw [submitRids_cons_submit] at h1
        exact (List.nodup_cons.mp h1).1
      rw [hsplit, run_append, cacheGet_run_ne env _ t2 r hnin, run_append]
      show cacheGet ((render env f r b (run env c0 t1)).cache) r = some body
      rw [hc]
      exact cacheGet_cacheSet_same _ r body

/-- Witness for C7: one successful submit followed by a fetch. -/
theorem pending_store_identifier_invariant_witness :
    ∃ bytes,
      cacheGet (run (some "http://backend") []
          ([Op.submit ⟨some "45.0", some "60.0", some "30.0"⟩ "r1"
            (BackendResult.ok (some "image/png") [3, 4])])) "r1"
        = some bytes ∧
      countKey (run (some "http://backend") []
          ([Op.submit ⟨some "45.0", some "60.0", some "30.0"⟩ "r1"
            (BackendResult.ok (some "image/png") [3, 4])])) "r1" = 1 ∧
      cacheGet (run (some "http://backend") []
          ([Op.submit ⟨some "45.0", some "60.0", some "30.0"⟩ "r1"
            (BackendResult.ok (some "image/png") [3, 4]),
            Op.fetch "r1"])) "r1" = some bytes :=
  pending_store_identifier_invariant (some "http://backend") [] []
    [Op.fetch "r1"] ⟨some "45.0", some "60.0", some "30.0"⟩ "r1"
    (BackendResult.ok (some "image/png") [3, 4]) (by decide) (by decide)

/-- C8: For every identifier absent from the Pending Image store, the image
fetch handler responds with the 404 not-found error. -/
theorem fetch_absent_404 (c : Cache) (rid : String)
    (h : cacheGet c rid = none) : image c rid = ImageResp.notFound := by
  unfold image
  rw [h]

/-- Witness for C8: an unseen identifier against a nonempty store. -/
theorem fetch_absent_404_witness :
    image [("staged", [1, 2])] "unseen" = ImageResp.notFound :=
  fetch_absent_404 [("staged", [1, 2])] "unseen" (by decide)

/-- C9: The Pending Image store is modified only by a successful submit
(one answering 200), which binds exactly one new entry — the drawn id to the
response body, growing the store by one when the id is fresh; an
unsuccessful submit leaves the store unchanged, and a fetch performs no
state change on the store, so repeated fetches observe the same bytes. -/
theorem store_frame_conditions :
    (∀ (env : Option String) (f : Form) (r : String) (b : BackendResult)
        (c : Cache), (render env f r b c).response.status ≠ 200 →
      (render env f r b c).cache = c) ∧
    (∀ (env : Option String) (f : Form) (r : String) (b : BackendResult)
        (c : Cache), (render env f r b c).response.status = 200 →
      ∃ body, (render env f r b c).cache = cacheSet c r body ∧
        (cacheGet c r = none →
          List.length ((render env f r b c).cache) = List.length c + 1)) ∧
    (∀ (env : Option String) (c : Cache) (r : String),
      stepCache env c (Op.fetch r) = c) ∧
    (∀ (env : Option String) (c : Cache) (r r2 : String),
      image (stepCache env c (Op.fetch r)) r2 = image c r2) := by
  refine ⟨?_, ?_, fun env c r => rfl, fun env c r r2 => rfl⟩
  · intro env f r b c h
    rcases render_split env f r b c with ⟨-, hc⟩ | ⟨ct, body, -, h200, -, -, -⟩
    · exact hc
    · exact absurd h200 h
  · intro env f r b c h
    rcases render_split env f r b c with ⟨h200, -⟩ | ⟨ct, body, -, -, hc, -, -⟩
    · exact absurd h h200
    · refine ⟨body, hc, fun hfresh => ?_⟩
      rw [hc]
      exact length_cacheSet_fresh c r body hfresh

/-- Witness for C9: a failed submit leaves the store unchanged; a successful
one adds exactly one entry; fetches do not change the store. -/
theorem store_frame_conditions_witness :
    (render (some "http://backend") ⟨some "45.0", some "60.0", some "30.0"⟩
        "r1" (BackendResult.exn "boom") [("k", [0])]).cache = [("k", [0])] ∧
    (∃ body, (render (some "http://backend")
        ⟨some "45.0", some "60.0", some "30.0"⟩ "r1"
        (BackendResult.ok (some "image/png") [7]) [("k", [0])]).cache
          = cacheSet [("k", [0])] "r1" body ∧
      (cacheGet [("k", [0])] "r1" = none →
        List.length ((render (some "http://backend")
          ⟨some "45.0", some "60.0", some "30.0"⟩ "r1"
          (BackendResult.ok (some "image/png") [7]) [("k", [0])]).cache)
          = List.length [("k", [0])] + 1)) ∧
    stepCache (some "http://backend") [("k", [0])] (Op.fetch "r1")
      = [("k", [0])] ∧
    image (stepCache (some "http://backend") [("k", [0])] (Op.fetch "q")) "k"
      = image [("k", [0])] "k" :=
  ⟨store_frame_conditions.1 (some "http://backend")
      ⟨some "45.0", some "60.0", some "30.0"⟩ "r1" (BackendResult.exn "boom")
      [("k", [0])] (by decide),
    store_frame_conditions.2.1 (some "http://backend")
      ⟨some "45.0", some "60.0", some "30.0"⟩ "r1"
      (BackendResult.ok (some "image/png") [7]) [("k", [0])] (by decide),
    store_frame_conditions.2.2.1 (some "http://backend") [("k", [0])] "r1",
    store_frame_conditions.2.2.2 (some "http://backend") [("k", [0])] "q" "k"⟩

/-- C10: For every POST to `/render` in which one or more of the three form
fields is entirely missing, even with the backend configured, the handler
returns the 400 validation error — the `KeyError` from `request.form[...]`
is caught by the same `except` — echoing the empty string for each missing
field, and does not call the renderer. -/
theorem submit_missing_field_400
    (env : Option String) (f : Form) (rid : String) (b : BackendResult)
    (c : Cache)
    (hcfg : configuredUrl env ≠ "")
    (hmiss : f.azimuth_deg = none ∨ f.polar_deg = none ∨
      f.elevation_deg = none) :
    (render env f rid b c).response.status = 400 ∧
    (render env f rid b c).calledBackend = false ∧
    (render env f rid b c).cache = c ∧
    (render env f rid b c).response.error
      = some "Invalid input. Please enter numeric degrees." ∧
    (f.azimuth_deg = none → (render env f rid b c).response.azimuth_deg = "") ∧
    (f.polar_deg = none → (render env f rid b c).response.polar_deg = "") ∧
    (f.elevation_deg = none →
      (render env f rid b c).response.elevation_deg = "") := by
  have hbad : parseField f.azimuth_deg = none ∨ parseField f.polar_deg = none ∨
      parseField f.elevation_deg = none := by
    rcases hmiss with h | h | h
    · exact Or.inl (by simp [parseField, h])
    · exact Or.inr (Or.inl (by simp [parseField, h]))
    · exact Or.inr (Or.inr (by simp [parseField, h]))
  rw [render_invalid_400 env f rid b c hcfg hbad]
  refine ⟨rfl, rfl, rfl, rfl, fun h => ?_, fun h => ?_, fun h => ?_⟩ <;>
    rw [h] <;> rfl

/-- Witness for C10: the azimuth field missing from the POST body. -/
theorem submit_missing_field_400_witness :
    (render (some "http://backend") ⟨none, some "60.0", some "30.0"⟩ "xid"
        (BackendResult.ok (some "image/png") [1]) []).response.status = 400 ∧
    (render (some "http://backend") ⟨none, some "60.0", some "30.0"⟩ "xid"
        (BackendResult.ok (some "image/png") [1]) []).calledBackend = false ∧
    (render (some "http://backend") ⟨none, some "60.0", some "30.0"⟩ "xid"
        (BackendResult.ok (some "image/png") [1]) []).response.azimuth_deg
      = "" := by
  obtain ⟨h1, h2, -, -, h5, -, -⟩ :=
    submit_missing_field_400 (some "http://backend")
      ⟨none, some "60.0", some "30.0"⟩ "xid"
      (BackendResult.ok (some "image/png") [1]) [] (by decide) (Or.inl rfl)
  exact ⟨h1, h2, h5 rfl⟩
